import Mathlib

/-!
Verification of the box-breathing session state machine of AlexJ456/Box5n11.

The repository holds two near-identical variants of one UI controller
(src/app.js and src/unnamed/part_000); their session-state logic (the
`state` record, `togglePlay`, `resetToStart`, `toggleSound`,
`handleTimeLimitChange`, `startWithPreset`, the `setInterval` tick callback
inside `startInterval`, the phase-time slider handler, and `formatTime`)
is textually identical, so one embedding covers both.

Modelling notes:
* Presentation-only fields (`pulseStartTime`, `devicePixelRatio`,
  `viewportWidth`, `viewportHeight`, `prefersReducedMotion`) carry
  wall-clock timestamps and layout metrics; they never feed back into the
  session logic and are omitted from the embedded state.
* `timeLimit` is a JavaScript string; its use as a condition
  (`if (state.timeLimit ...)`) is string truthiness, i.e. non-emptiness —
  note that the string "0" is truthy. `parseInt` on the digits-only
  strings produced by `handleTimeLimitChange`/`startWithPreset` is decimal
  string-to-number conversion.
* `countdown` is embedded as `Int` because the code subtracts from it
  (`state.countdown -= 1`); `count`, `totalTime` and `phaseTime` are only
  ever assigned non-negative values and never subtracted from, so they are
  embedded as `Nat`.
* Side effects (tone playback, canvas drawing, wake lock, DOM re-render)
  do not touch the session state and are dropped; `clearInterval` inside
  the tick callback's completion branch is modelled by `ticksN`, which
  stops applying ticks once `sessionComplete` holds.
-/

/-- The session state of the controller (the mutable `state` object in
`app.js`, restricted to the fields the session logic reads or writes). -/
structure State where
  isPlaying : Bool
  count : Nat
  countdown : Int
  totalTime : Nat
  soundEnabled : Bool
  timeLimit : String
  sessionComplete : Bool
  timeLimitReached : Bool
  phaseTime : Nat
  hasStarted : Bool
deriving DecidableEq

/-- The initial state literal at the top of the controller
(`isPlaying: false, count: 0, countdown: 4, totalTime: 0,
soundEnabled: false, timeLimit: '', sessionComplete: false,
timeLimitReached: false, phaseTime: 4, hasStarted: false`). -/
def initState : State :=
  { isPlaying := false
    count := 0
    countdown := 4
    totalTime := 0
    soundEnabled := false
    timeLimit := ""
    sessionComplete := false
    timeLimitReached := false
    phaseTime := 4
    hasStarted := false }

/-- `parseInt(state.timeLimit)` on the digits-only strings kept in
`state.timeLimit` (`handleTimeLimitChange` strips non-digits and
`startWithPreset` stores a decimal numeral): decimal conversion.  The code
guards the call with string truthiness, so the empty string is never
parsed. -/
def parseIntDigits (s : String) : Nat :=
  s.toList.foldl (fun n c => n * 10 + (c.toNat - Char.toNat '0')) 0

/-- The time-limit check at the top of the tick callback:
`if (state.timeLimit && !state.timeLimitReached) { const timeLimitSeconds =
parseInt(state.timeLimit) * 60; if (state.totalTime >= timeLimitSeconds)
state.timeLimitReached = true; }`. -/
def tickReach (s : State) : State :=
  if s.timeLimit ≠ "" ∧ s.timeLimitReached = false ∧
      parseIntDigits s.timeLimit * 60 ≤ s.totalTime then
    { s with timeLimitReached := true }
  else s

/-- One firing of the `setInterval` callback installed by `startInterval`:
`state.totalTime += 1`, then the time-limit check, then
`if (state.countdown === 1) { state.count = (state.count + 1) % 4;
state.countdown = state.phaseTime; if (state.count === 3 &&
state.timeLimitReached) { state.sessionComplete = true; state.isPlaying =
false; state.hasStarted = false; ... } } else { state.countdown -= 1; }`. -/
def tick (s : State) : State :=
  let s2 := tickReach { s with totalTime := s.totalTime + 1 }
  if s2.countdown = 1 then
    let s3 := { s2 with count := (s2.count + 1) % 4,
                        countdown := (s2.phaseTime : Int) }
    if s3.count = 3 ∧ s3.timeLimitReached = true then
      { s3 with sessionComplete := true, isPlaying := false,
                hasStarted := false }
    else s3
  else
    { s2 with countdown := s2.countdown - 1 }

/-- Plain iteration of the tick callback body, `n` firings. -/
def tickIter : Nat → State → State
  | 0, s => s
  | n + 1, s => tickIter n (tick s)

/-- `n` seconds of a running session: the interval fires once per second,
and the completion branch of the callback clears the interval
(`clearInterval(interval)`), so no further firing happens once
`sessionComplete` holds. -/
def ticksN : Nat → State → State
  | 0, s => s
  | n + 1, s => if s.sessionComplete then s else ticksN n (tick s)

/-- `togglePlay()`: flips `isPlaying`; the start branch sets
`hasStarted = true` and resets the session counters, the pause branch
resets the counters and `hasStarted` (but not `timeLimit`). -/
def togglePlay (s : State) : State :=
  let s1 := { s with isPlaying := !s.isPlaying }
  if s1.isPlaying then
    { s1 with hasStarted := true, totalTime := 0,
              countdown := (s1.phaseTime : Int), count := 0,
              sessionComplete := false, timeLimitReached := false }
  else
    { s1 with totalTime := 0, countdown := (s1.phaseTime : Int),
              count := 0, sessionComplete := false,
              timeLimitReached := false, hasStarted := false }

/-- `resetToStart()`: unconditionally returns to the idle start screen and
clears `timeLimit`. -/
def resetToStart (s : State) : State :=
  { s with isPlaying := false, totalTime := 0,
           countdown := (s.phaseTime : Int), count := 0,
           sessionComplete := false, timeLimit := "",
           timeLimitReached := false, hasStarted := false }

/-- `toggleSound()`: `state.soundEnabled = !state.soundEnabled`. -/
def toggleSound (s : State) : State :=
  { s with soundEnabled := !s.soundEnabled }

/-- `handleTimeLimitChange(e)`:
`state.timeLimit = e.target.value.replace(/[^0-9]/g, '')` — the raw input
string with every non-digit character removed. -/
def handleTimeLimitChange (input : String) (s : State) : State :=
  { s with timeLimit := String.mk (input.toList.filter Char.isDigit) }

/-- `startWithPreset(minutes)`: sets `timeLimit = minutes.toString()` and
starts a session (same counter resets as the start branch of
`togglePlay`). -/
def startWithPreset (minutes : Nat) (s : State) : State :=
  { s with timeLimit := toString minutes, isPlaying := true,
           totalTime := 0, countdown := (s.phaseTime : Int), count := 0,
           sessionComplete := false, timeLimitReached := false,
           hasStarted := true }

/-- The phase-time slider in `render()` is declared
`<input type="range" min="3" max="6" step="1" ...>`; a range input's value
is kept inside its declared bounds by the browser, so the handler
`state.phaseTime = parseInt(this.value)` stores the bound-clamped value. -/
def setPhaseTime (v : Nat) (s : State) : State :=
  { s with phaseTime := max 3 (min 6 v) }

/-- Which controls `render()` emits, read off from its `if` guards:
the settings block, the phase-time slider and the preset buttons are
emitted only under `!state.isPlaying && !state.sessionComplete`; the reset
button only under `state.sessionComplete`; the start/pause button under
`!state.sessionComplete`. -/
structure RenderedControls where
  showsSettings : Bool
  showsPhaseTimeSlider : Bool
  showsPresets : Bool
  showsReset : Bool
  showsStartPauseButton : Bool
  showsCompleteBanner : Bool
deriving DecidableEq

/-- The control-visibility part of `render()`. -/
def renderControls (s : State) : RenderedControls :=
  { showsSettings := !s.isPlaying && !s.sessionComplete
    showsPhaseTimeSlider := !s.isPlaying && !s.sessionComplete
    showsPresets := !s.isPlaying && !s.sessionComplete
    showsReset := s.sessionComplete
    showsStartPauseButton := !s.sessionComplete
    showsCompleteBanner := s.sessionComplete }

/-- JavaScript `str.padStart(2, '0')`: if the string already has length at
least 2 it is returned unchanged, otherwise zeros are prepended up to
length 2. -/
def padStart2 (str : String) : String :=
  if 2 ≤ str.length then str
  else String.mk (List.replicate (2 - str.length) '0') ++ str

/-- `formatTime(seconds)`: `Math.floor(seconds / 60)` and `seconds % 60`,
each rendered in decimal and padded with `padStart(2, '0')`, joined by a
colon.  Its only argument in the code is `state.totalTime`, which is a
non-negative integer, so the argument is a `Nat` and `Math.floor` of the
division is `Nat` division. -/
def formatTime (seconds : Nat) : String :=
  padStart2 (toString (seconds / 60)) ++ ":" ++
    padStart2 (toString (seconds % 60))

/-- The spec's description of the rendering: minutes `floor(s/60)` and
seconds `s mod 60`, each left-padded with zeros to at least two digits,
separated by a colon.  Stated independently of `padStart2` so that
`formatTime` can be compared against it. -/
def formatTimeSpec (s : Nat) : String :=
  (if (toString (s / 60)).length = 0 then "00"
   else if (toString (s / 60)).length = 1 then "0" ++ toString (s / 60)
   else toString (s / 60)) ++ ":" ++
  (if (toString (s % 60)).length = 0 then "00"
   else if (toString (s % 60)).length = 1 then "0" ++ toString (s % 60)
   else toString (s % 60))

/-- The reachable-session invariant: the phase index stays in `{0,1,2,3}`
and the countdown stays between 1 and the (positive) phase duration. -/
def SessionInv (s : State) : Prop :=
  s.count < 4 ∧ 1 ≤ s.countdown ∧ s.countdown ≤ (s.phaseTime : Int) ∧
    1 ≤ s.phaseTime

/-- The value of `timeLimitReached` right after the time-limit check of a
tick firing on state `s` (the check sees `totalTime` already
incremented). -/
def reachedAfter (s : State) : Bool :=
  if s.timeLimit ≠ "" ∧ s.timeLimitReached = false ∧
      parseIntDigits s.timeLimit * 60 ≤ s.totalTime + 1 then true
  else s.timeLimitReached

/-- A mid-session state one tick before a time-limited completion: playing,
in the Exhale phase (count 2) with one second left on the countdown,
59 seconds elapsed against a one-minute limit. -/
def c1State : State :=
  { initState with
      isPlaying := true, hasStarted := true, count := 2, countdown := 1,
      totalTime := 59, timeLimit := "1" }

/-! ### Structural lemmas about a single tick -/

lemma tick_countdown_ne (s : State) (h : s.countdown ≠ 1) :
    (tick s).count = s.count ∧ (tick s).countdown = s.countdown - 1 ∧
    (tick s).phaseTime = s.phaseTime ∧ (tick s).timeLimit = s.timeLimit ∧
    (tick s).sessionComplete = s.sessionComplete ∧ (tick s).isPlaying = s.isPlaying := by
  unfold tick tickReach
  dsimp only
  split <;> simp_all

lemma tick_countdown_one (s : State) (h : s.countdown = 1) :
    (tick s).count = (s.count + 1) % 4 ∧ (tick s).countdown = (s.phaseTime : Int) ∧
    (tick s).phaseTime = s.phaseTime ∧ (tick s).timeLimit = s.timeLimit := by
  unfold tick tickReach
  dsimp only
  split <;> split <;> simp_all

lemma tick_timeLimitReached_eq (s : State) :
    (tick s).timeLimitReached = reachedAfter s := by
  unfold tick tickReach reachedAfter
  dsimp only
  split <;> split <;> (try split) <;> simp_all

lemma tick_sessionComplete_iff (s : State) :
    (tick s).sessionComplete = true ↔
      s.sessionComplete = true ∨
        (s.countdown = 1 ∧ (s.count + 1) % 4 = 3 ∧ reachedAfter s = true) := by
  unfold tick tickReach reachedAfter
  dsimp only
  split <;> split <;> (try split) <;> simp_all

lemma tick_isPlaying_eq (s : State) :
    (tick s).isPlaying =
      if s.countdown = 1 ∧ (s.count + 1) % 4 = 3 ∧ reachedAfter s = true
      then false else s.isPlaying := by
  unfold tick tickReach reachedAfter
  dsimp only
  split <;> split <;> (try split) <;> (simp_all; try tauto)

lemma tick_phaseTime_eq (s : State) : (tick s).phaseTime = s.phaseTime := by
  unfold tick tickReach
  dsimp only
  split <;> split <;> (try split) <;> simp_all

lemma tick_timeLimit_eq (s : State) : (tick s).timeLimit = s.timeLimit := by
  unfold tick tickReach
  dsimp only
  split <;> split <;> (try split) <;> simp_all

lemma togglePlay_phaseTime (s : State) : (togglePlay s).phaseTime = s.phaseTime := by
  unfold togglePlay
  dsimp only
  split <;> rfl

lemma ticksN_frozen (s : State) (h : s.sessionComplete = true) (n : Nat) :
    ticksN n s = s := by
  cases n with
  | zero => rfl
  | succ n => simp [ticksN, h]

lemma tickIter_succ_back (n : Nat) (s : State) :
    tickIter (n + 1) s = tick (tickIter n s) := by
  induction n generalizing s with
  | zero => rfl
  | succ n ih =>
    show tickIter (n + 1) (tick s) = tick (tickIter (n + 1) s)
    rw [ih (tick s)]
    rfl

lemma tickIter_within (k : Nat) (s : State) (hk : (k : Int) < s.countdown) :
    (tickIter k s).count = s.count ∧
    (tickIter k s).countdown = s.countdown - k ∧
    (tickIter k s).phaseTime = s.phaseTime := by
  induction k generalizing s with
  | zero => simp [tickIter]
  | succ k ih =>
    have h1 : s.countdown ≠ 1 := by omega
    obtain ⟨hc, hd, hp, -, -, -⟩ := tick_countdown_ne s h1
    have hk2 : (k : Int) < (tick s).countdown := by
      rw [hd]; push_cast at hk ⊢; omega
    obtain ⟨ihc, ihd, ihp⟩ := ih (tick s) hk2
    refine ⟨?_, ?_, ?_⟩
    · show (tickIter k (tick s)).count = s.count
      rw [ihc, hc]
    · show (tickIter k (tick s)).countdown = s.countdown - (k + 1 : Nat)
      rw [ihd, hd]; push_cast; ring
    · show (tickIter k (tick s)).phaseTime = s.phaseTime
      rw [ihp, hp]

lemma reachedAfter_of_empty (s : State) (hL : s.timeLimit = "")
    (hR : s.timeLimitReached = false) : reachedAfter s = false := by
  unfold reachedAfter
  rw [if_neg]
  · exact hR
  · simp [hL]

lemma tick_noLimit (s : State) (hL : s.timeLimit = "") (hR : s.timeLimitReached = false)
    (hC : s.sessionComplete = false) :
    (tick s).timeLimit = "" ∧ (tick s).timeLimitReached = false ∧
    (tick s).sessionComplete = false ∧ (tick s).isPlaying = s.isPlaying := by
  have hra := reachedAfter_of_empty s hL hR
  refine ⟨by rw [tick_timeLimit_eq, hL], by rw [tick_timeLimitReached_eq, hra], ?_, ?_⟩
  · have hiff := tick_sessionComplete_iff s
    simp only [hC, hra, Bool.false_eq_true, false_or, and_false, iff_false,
      Bool.not_eq_true] at hiff
    exact hiff
  · rw [tick_isPlaying_eq, if_neg]
    simp [hra]

lemma padStart2_eq_pad (str : String) :
    padStart2 str =
      if str.length = 0 then "00"
      else if str.length = 1 then "0" ++ str
      else str := by
  rcases str with ⟨data⟩
  match data with
  | [] => rfl
  | [c] => rfl
  | c :: c' :: rest =>
    have h2 : 2 ≤ (String.mk (c :: c' :: rest)).length := by
      simp [String.length]
    unfold padStart2
    rw [if_pos h2, if_neg (by omega), if_neg (by omega)]

/-! ### Claims -/

/-- Claim C1 (amended): for any state with a valid phase index, if a tick
turns `sessionComplete` from false to true, then that tick fired with
`countdown = 1` and advanced the phase index from 2 to 3 (the Wait phase
begins — not the claimed 3-to-0 boundary), `timeLimitReached` holds after
that tick's limit check (it may have become true on that same tick rather
than already being true before it), `isPlaying` is set false, and no
further tick fires. -/
theorem c1_theorem (s : State) (hc : s.count < 4) (h0 : s.sessionComplete = false)
    (h1 : (tick s).sessionComplete = true) :
    s.countdown = 1 ∧ s.count = 2 ∧ (tick s).count = 3 ∧
    (tick s).timeLimitReached = true ∧ (tick s).isPlaying = false ∧
    ∀ n, ticksN n (tick s) = tick s := by
  have hch := (tick_sessionComplete_iff s).mp h1
  rw [h0] at hch
  simp only [Bool.false_eq_true, false_or] at hch
  obtain ⟨hcd, hc3, hra⟩ := hch
  obtain ⟨hct, -, -, -⟩ := tick_countdown_one s hcd
  refine ⟨hcd, by omega, by rw [hct, hc3], ?_, ?_, ticksN_frozen (tick s) h1⟩
  · rw [tick_timeLimitReached_eq, hra]
  · rw [tick_isPlaying_eq, if_pos ⟨hcd, hc3, hra⟩]

/-- Claim C1 witness: the single-tick completion shape evaluated at a
concrete playing state (Exhale phase, one second left, 59 of 60 limit
seconds elapsed). -/
theorem c1_witness :
    c1State.countdown = 1 ∧ c1State.count = 2 ∧ (tick c1State).count = 3 ∧
    (tick c1State).timeLimitReached = true ∧ (tick c1State).isPlaying = false ∧
    ticksN 3 (tick c1State) = tick c1State := by
  have h := c1_theorem c1State (by decide) (by decide) (by decide)
  exact ⟨h.1, h.2.1, h.2.2.1, h.2.2.2.1, h.2.2.2.2.1, h.2.2.2.2.2 3⟩

/-- Claim C1 counterexample: start with a one-minute limit and the default
4-second phases.  On tick 60 `sessionComplete` becomes true while the
phase index transitions from 2 to 3 (the Wait phase begins), not at a
3-to-0 boundary, and `timeLimitReached` was still false on tick 59, so it
becomes true on the very tick that completes the session rather than
already being true. -/
theorem c1_counterexample :
    (ticksN 59 (togglePlay (handleTimeLimitChange "1" initState))).sessionComplete = false ∧
    (ticksN 59 (togglePlay (handleTimeLimitChange "1" initState))).timeLimitReached = false ∧
    (ticksN 59 (togglePlay (handleTimeLimitChange "1" initState))).count = 2 ∧
    (ticksN 60 (togglePlay (handleTimeLimitChange "1" initState))).sessionComplete = true ∧
    (ticksN 60 (togglePlay (handleTimeLimitChange "1" initState))).count = 3 ∧
    (ticksN 60 (togglePlay (handleTimeLimitChange "1" initState))).isPlaying = false := by
  decide

/-- Claim C2 (amended): a session whose `timeLimit` is the empty string
(unset) is unlimited — no number of ticks ever sets `timeLimitReached` or
`sessionComplete`, the limit stays unset and `isPlaying` keeps its value,
so the session cycles until explicitly paused or stopped.  The string
"0", however, is truthy in the code and acts as a zero-second limit, not
as unlimited (see the counterexample). -/
theorem c2_theorem (s : State) (hL : s.timeLimit = "") (hR : s.timeLimitReached = false)
    (hC : s.sessionComplete = false) (n : Nat) :
    (ticksN n s).timeLimitReached = false ∧ (ticksN n s).sessionComplete = false ∧
    (ticksN n s).isPlaying = s.isPlaying ∧ (ticksN n s).timeLimit = "" := by
  induction n generalizing s with
  | zero => exact ⟨hR, hC, rfl, hL⟩
  | succ n ih =>
    obtain ⟨tL, tR, tC, tP⟩ := tick_noLimit s hL hR hC
    have step : ticksN (n + 1) s = ticksN n (tick s) := by simp [ticksN, hC]
    obtain ⟨iR, iC, iP, iL⟩ := ih (tick s) tL tR tC
    exact ⟨by rw [step]; exact iR, by rw [step]; exact iC,
      by rw [step, iP, tP], by rw [step]; exact iL⟩

/-- Claim C2 witness: the unlimited-session theorem evaluated after five
ticks of a session started with no time limit. -/
theorem c2_witness :
    (ticksN 5 (togglePlay initState)).timeLimitReached = false ∧
    (ticksN 5 (togglePlay initState)).sessionComplete = false ∧
    (ticksN 5 (togglePlay initState)).isPlaying = (togglePlay initState).isPlaying ∧
    (ticksN 5 (togglePlay initState)).timeLimit = "" :=
  c2_theorem (togglePlay initState) (by decide) (by decide) (by decide) 5

/-- Claim C2 counterexample: a session started with the time limit "0" is
not unlimited — `"0"` is a truthy string, `parseInt("0") * 60 = 0`, so
`timeLimitReached` is set on the very first tick and the session
completes (stopping play) on tick 12, when the Wait phase of the first
cycle begins. -/
theorem c2_counterexample :
    (togglePlay (handleTimeLimitChange "0" initState)).timeLimit = "0" ∧
    (ticksN 1 (togglePlay (handleTimeLimitChange "0" initState))).timeLimitReached = true ∧
    (ticksN 12 (togglePlay (handleTimeLimitChange "0" initState))).sessionComplete = true ∧
    (ticksN 12 (togglePlay (handleTimeLimitChange "0" initState))).isPlaying = false := by
  decide

/-- Claim C3 (amended): `resetToStart()` from any Complete state yields
exactly the freshly initialized state except that `soundEnabled` AND
`phaseTime` keep their current values (with `countdown` reset to that
preserved `phaseTime`); in particular `isPlaying = false`, `count = 0`,
`totalTime = 0`, `timeLimit` is cleared to unset, and
`timeLimitReached`/`sessionComplete` are false. -/
theorem c3_theorem (s : State) (_h : s.sessionComplete = true) :
    resetToStart s =
      { initState with soundEnabled := s.soundEnabled, phaseTime := s.phaseTime,
                       countdown := (s.phaseTime : Int) } := rfl

/-- Claim C3 witness: the reset equation evaluated at a concrete Complete
state with sound on and a 6-second phase duration. -/
theorem c3_witness :
    resetToStart { initState with sessionComplete := true, soundEnabled := true, phaseTime := 6 } =
      { initState with soundEnabled := true, phaseTime := 6, countdown := 6 } :=
  c3_theorem { initState with sessionComplete := true, soundEnabled := true, phaseTime := 6 }
    (by decide)

/-- Claim C3 counterexample: run a session to completion with
`phaseTime = 5` (set while idle) and a one-minute limit; `resetToStart`
then differs from the freshly initialized state even after allowing
`soundEnabled` to be preserved, because `phaseTime` stays 5 while the
fresh state has 4 — so `soundEnabled` is not the sole exception. -/
theorem c3_counterexample :
    (ticksN 75 (togglePlay (handleTimeLimitChange "1" (setPhaseTime 5 initState)))).sessionComplete = true ∧
    (ticksN 75 (togglePlay (handleTimeLimitChange "1" (setPhaseTime 5 initState)))).phaseTime = 5 ∧
    initState.phaseTime = 4 ∧
    resetToStart (ticksN 75 (togglePlay (handleTimeLimitChange "1" (setPhaseTime 5 initState)))) ≠
      { initState with
          soundEnabled :=
            (ticksN 75 (togglePlay (handleTimeLimitChange "1" (setPhaseTime 5 initState)))).soundEnabled } := by
  decide

/-- Claim C4 (amended): pausing from Running (`togglePlay` with
`isPlaying = true`) returns every field to its initial value except
`soundEnabled`, `phaseTime` (with `countdown` reset to that preserved
`phaseTime`) and `timeLimit`: `totalTime` becomes 0, `count` becomes 0,
and `timeLimitReached`/`sessionComplete` become false, but the entered
time limit is NOT cleared by a pause (only `resetToStart` clears it). -/
theorem c4_theorem (s : State) (h : s.isPlaying = true) :
    togglePlay s =
      { initState with soundEnabled := s.soundEnabled, phaseTime := s.phaseTime,
                       countdown := (s.phaseTime : Int), timeLimit := s.timeLimit } := by
  cases s
  subst h
  rfl

/-- Claim C4 witness: the pause equation evaluated on a session started
with the 2-minute preset. -/
theorem c4_witness :
    togglePlay (startWithPreset 2 initState) = { initState with timeLimit := "2" } :=
  c4_theorem (startWithPreset 2 initState) rfl

/-- Claim C4 counterexample: start with the 2-minute preset and pause; the
stored `timeLimit` remains "2" instead of returning to its initial unset
value "", refuting the claim that every field except `soundEnabled` and
`phaseDuration` returns to its initial value. -/
theorem c4_counterexample :
    (startWithPreset 2 initState).isPlaying = true ∧
    (togglePlay (startWithPreset 2 initState)).isPlaying = false ∧
    (togglePlay (startWithPreset 2 initState)).timeLimit = "2" ∧
    initState.timeLimit = "" := by
  decide

/-- Claim C5 (confirmed): for every phase duration `d` in `[3,8]`, from any
phase start (`countdown = d`, any phase index), exactly `d` ticks advance
the phase index by exactly 1 mod 4 and reset the countdown to `d`, while
any fewer ticks leave the phase index unchanged (the countdown merely
decreasing), so the advance happens at no other point within the phase. -/
theorem c5_theorem (d : Nat) (s : State) (h3 : 3 ≤ d) (h8 : d ≤ 8)
    (hpt : s.phaseTime = d) (hcd : s.countdown = (d : Int)) :
    (tickIter d s).count = (s.count + 1) % 4 ∧
    (tickIter d s).countdown = (d : Int) ∧
    ∀ k, k < d → (tickIter k s).count = s.count ∧
      (tickIter k s).countdown = (d : Int) - k := by
  obtain ⟨e, rfl⟩ : ∃ e, d = e + 1 := ⟨d - 1, by omega⟩
  obtain ⟨hwc, hwd, hwp⟩ := tickIter_within e s (by rw [hcd]; push_cast; omega)
  have hone : (tickIter e s).countdown = 1 := by rw [hwd, hcd]; push_cast; omega
  obtain ⟨tc, td, -, -⟩ := tick_countdown_one (tickIter e s) hone
  refine ⟨?_, ?_, ?_⟩
  · rw [tickIter_succ_back, tc, hwc]
  · rw [tickIter_succ_back, td, hwp, hpt]
  · intro k hk
    obtain ⟨kc, kd, -⟩ := tickIter_within k s (by rw [hcd]; push_cast; omega)
    exact ⟨kc, by rw [kd, hcd]⟩

/-- Claim C5 witness: the phase-advance theorem evaluated at `d = 4` on a
freshly started session: 4 ticks advance the phase, 3 ticks do not. -/
theorem c5_witness :
    (tickIter 4 (togglePlay initState)).count = ((togglePlay initState).count + 1) % 4 ∧
    (tickIter 4 (togglePlay initState)).countdown = (4 : Int) ∧
    (tickIter 3 (togglePlay initState)).count = (togglePlay initState).count := by
  have h := c5_theorem 4 (togglePlay initState) (by decide) (by decide) (by decide) (by decide)
  exact ⟨h.1, h.2.1, (h.2.2 3 (by decide)).1⟩

/-- Claim C6 (confirmed): a session started by `togglePlay` with the
default `phaseTime = 4` and no time limit runs through the count sequence
0,0,0,0,1,1,1,1,2,2,2,2,3,3,3,3,0 over its first 16 ticks — each of the
four phases is occupied for exactly four ticks and entered exactly once
before the index returns to its starting value 0 — and `sessionComplete`
is still false. -/
theorem c6_theorem :
    (togglePlay initState).phaseTime = 4 ∧ (togglePlay initState).timeLimit = "" ∧
    ((List.range 17).map fun k => (ticksN k (togglePlay initState)).count) =
      [0, 0, 0, 0, 1, 1, 1, 1, 2, 2, 2, 2, 3, 3, 3, 3, 0] ∧
    (ticksN 16 (togglePlay initState)).count = (togglePlay initState).count ∧
    (ticksN 16 (togglePlay initState)).sessionComplete = false := by
  decide

/-- Claim C7 (amended): the phase-time slider is only rendered while Idle
(not playing and not complete), so it never affects an in-progress
session; its configured bounds are `[3,6]` — `min="3" max="6"` in the
rendered markup, not `[3,8]` — so every stored value lies in `[3,6]`
(hence also within `[3,8]`), in-range inputs are stored unchanged, the
handler changes no other field, and no session operation ever changes
`phaseTime`. -/
theorem c7_theorem (s : State) (v : Nat)
    (hs : (renderControls s).showsPhaseTimeSlider = true) :
    (s.isPlaying = false ∧ s.sessionComplete = false) ∧
    (3 ≤ (setPhaseTime v s).phaseTime ∧ (setPhaseTime v s).phaseTime ≤ 6) ∧
    (3 ≤ v → v ≤ 6 → (setPhaseTime v s).phaseTime = v) ∧
    ((setPhaseTime v s).isPlaying = s.isPlaying ∧ (setPhaseTime v s).count = s.count ∧
      (setPhaseTime v s).countdown = s.countdown ∧
      (setPhaseTime v s).totalTime = s.totalTime ∧
      (setPhaseTime v s).soundEnabled = s.soundEnabled ∧
      (setPhaseTime v s).timeLimit = s.timeLimit ∧
      (setPhaseTime v s).sessionComplete = s.sessionComplete ∧
      (setPhaseTime v s).timeLimitReached = s.timeLimitReached ∧
      (setPhaseTime v s).hasStarted = s.hasStarted) ∧
    ((tick s).phaseTime = s.phaseTime ∧ (togglePlay s).phaseTime = s.phaseTime ∧
      (resetToStart s).phaseTime = s.phaseTime ∧ (toggleSound s).phaseTime = s.phaseTime ∧
      ∀ m, (startWithPreset m s).phaseTime = s.phaseTime) := by
  refine ⟨?_, ⟨?_, ?_⟩, ?_, ⟨rfl, rfl, rfl, rfl, rfl, rfl, rfl, rfl, rfl⟩,
    tick_phaseTime_eq s, togglePlay_phaseTime s, rfl, rfl, fun m => rfl⟩
  · simpa [renderControls] using hs
  · show 3 ≤ max 3 (min 6 v); omega
  · show max 3 (min 6 v) ≤ 6; omega
  · intro h3 h6; show max 3 (min 6 v) = v; omega

/-- Claim C7 witness: the slider theorem evaluated at the initial (idle)
state, with the out-of-range input 8 bounded into `[3,6]`, the in-range
input 4 stored unchanged, and a preset start leaving `phaseTime` alone. -/
theorem c7_witness :
    initState.isPlaying = false ∧ initState.sessionComplete = false ∧
    3 ≤ (setPhaseTime 8 initState).phaseTime ∧ (setPhaseTime 8 initState).phaseTime ≤ 6 ∧
    (setPhaseTime 4 initState).phaseTime = 4 ∧
    (startWithPreset 2 initState).phaseTime = initState.phaseTime := by
  have h8 := c7_theorem initState 8 (by decide)
  have h4 := c7_theorem initState 4 (by decide)
  exact ⟨h8.1.1, h8.1.2, h8.2.1.1, h8.2.1.2, h4.2.2.1 (by decide) (by decide),
    h8.2.2.2.2.2.2.2.2 2⟩

/-- Claim C7 counterexample: the input 8 is not kept by a clamp to `[3,8]`
(which would store 8); the slider's actual bounds store 6. -/
theorem c7_counterexample :
    (setPhaseTime 8 initState).phaseTime = 6 ∧ (setPhaseTime 8 initState).phaseTime ≠ 8 := by
  decide

/-- Claim C8 (confirmed): `toggleSound()` applied twice is the identity on
the whole state, and a single call flips `soundEnabled` while leaving
every other field unchanged. -/
theorem c8_theorem (s : State) :
    toggleSound (toggleSound s) = s ∧
    (toggleSound s).soundEnabled = !s.soundEnabled ∧
    (toggleSound s).isPlaying = s.isPlaying ∧ (toggleSound s).count = s.count ∧
    (toggleSound s).countdown = s.countdown ∧ (toggleSound s).totalTime = s.totalTime ∧
    (toggleSound s).timeLimit = s.timeLimit ∧
    (toggleSound s).sessionComplete = s.sessionComplete ∧
    (toggleSound s).timeLimitReached = s.timeLimitReached ∧
    (toggleSound s).phaseTime = s.phaseTime ∧
    (toggleSound s).hasStarted = s.hasStarted := by
  refine ⟨?_, rfl, rfl, rfl, rfl, rfl, rfl, rfl, rfl, rfl, rfl⟩
  simp [toggleSound]

/-- Claim C9 (confirmed): `formatTime(125) = "02:05"`,
`formatTime(59) = "00:59"`, and in general `formatTime` renders
`floor(s/60)` and `s mod 60`, each left-padded with zeros to at least two
digits, separated by a colon. -/
theorem c9_theorem :
    formatTime 125 = "02:05" ∧ formatTime 59 = "00:59" ∧
    ∀ s, formatTime s = formatTimeSpec s := by
  refine ⟨by decide, by decide, fun s => ?_⟩
  unfold formatTime formatTimeSpec
  rw [padStart2_eq_pad, padStart2_eq_pad]

/-- Claim C10 (confirmed): session starts (`togglePlay` from a non-playing
state, or `startWithPreset`) establish the invariant that the phase index
is in `{0,1,2,3}` and `1 ≤ countdown ≤ phaseTime`; every tick preserves
it, so `countdown` never reaches 0 and the code's strict `countdown === 1`
test fires on exactly the ticks on which `countdown ≤ 1` holds. -/
theorem c10_theorem (s : State) (hpt : 1 ≤ s.phaseTime) :
    (s.isPlaying = false → SessionInv (togglePlay s)) ∧
    (∀ m, SessionInv (startWithPreset m s)) ∧
    (SessionInv s → SessionInv (tick s) ∧ (s.countdown = 1 ↔ s.countdown ≤ 1)) := by
  refine ⟨?_, ?_, ?_⟩
  · intro h
    simp only [SessionInv, togglePlay, h, Bool.not_false, if_true]
    omega
  · intro m
    simp only [SessionInv, startWithPreset]
    omega
  · intro hInv
    obtain ⟨h1, h2, h3, h4⟩ := hInv
    refine ⟨?_, by omega⟩
    by_cases hcd : s.countdown = 1
    · obtain ⟨hc, hd, hp, -⟩ := tick_countdown_one s hcd
      unfold SessionInv
      rw [hc, hd, hp]
      exact ⟨by omega, by omega, le_refl _, h4⟩
    · obtain ⟨hc, hd, hp, -, -, -⟩ := tick_countdown_ne s hcd
      unfold SessionInv
      rw [hc, hd, hp]
      exact ⟨h1, by omega, by omega, h4⟩

/-- Claim C10 witness: the invariant established by a fresh `togglePlay`
start and by the 2-minute preset start, preserved by the first tick, with
the strict-equality/le equivalence at the started state. -/
theorem c10_witness :
    SessionInv (togglePlay initState) ∧ SessionInv (startWithPreset 2 initState) ∧
    SessionInv (tick (togglePlay initState)) ∧
    ((togglePlay initState).countdown = 1 ↔ (togglePlay initState).countdown ≤ 1) := by
  have h0 := c10_theorem initState (by decide)
  have hInv : SessionInv (togglePlay initState) := h0.1 rfl
  have h1 := c10_theorem (togglePlay initState) (by decide)
  exact ⟨hInv, h0.2.1 2, (h1.2.2 hInv).1, (h1.2.2 hInv).2⟩
